import Mathlib

/-!
Shallow embedding of the backend in src/backend/main.py (FastAPI service):
the docker-stats telemetry cache (globals `_docker_stats_cache` /
`_docker_stats_ts`, functions `_collect_docker_stats`,
`_docker_stats_refresher`, endpoint `docker_stats`), the web-search trigger
predicate `needs_web_search`, and the chat endpoint `ollama_chat`.

Modelling conventions:
- Machine floats become exact rationals; Python integers become Int/Nat.
- Fallible external calls (docker stats read, the Ollama HTTP call) are
  passed in as explicit inputs: `Except String _` for calls whose
  exceptions the code catches, plain data for HTTP responses.
- The external collaborators the spec excludes from the core (embedding
  generator, web-search provider, raw stat reader, the database transport)
  enter as function-valued parameters; every line of core logic is
  translated from the source.
-/

/-! ## Telemetry: raw stats, per-container snapshot, collection -/

/-- Raw counters read from one container, as `container_stats` in
`_collect_docker_stats` consumes them.  `hasCpuStats` models the
`if 'cpu_stats' in s and 'precpu_stats' in s` key test; `percpuUsage`
models `s['cpu_stats']['cpu_usage'].get('percpu_usage', [1])` (with
`none` for an absent key); `memLimit` models
`s['memory_stats'].get('limit', 1)`. -/
structure RawStats where
  hasCpuStats : Bool
  cpuTotalUsage : Int
  precpuTotalUsage : Int
  systemCpuUsage : Int
  presystemCpuUsage : Int
  percpuUsage : Option (List Int)
  memUsage : Int
  memLimit : Option Int
deriving DecidableEq, Repr

/-- One entry of a telemetry frame: either the stats dict or the
`{name, status, error}` dict built in the `except` branch of
`container_stats`. -/
inductive ContainerSnapshot where
  | stats (name status : String) (cpu_percent : ℚ) (mem_usage mem_limit : Int)
      (mem_percent : ℚ)
  | err (name status : String) (error : String)
deriving DecidableEq, Repr

deriving instance DecidableEq for Except

/-- Input for one container: its name, status, and the outcome of the
`c.stats(stream=False)` read — `Except.error e` when that call (or a
subsequent key lookup) raises with message `e`, which the code catches
per container. -/
structure ContainerIn where
  name : String
  status : String
  raw : Except String RawStats
deriving DecidableEq, Repr

/-- Python `round(x, 2)`: round to two decimal places. -/
def round2 (x : ℚ) : ℚ := (round (x * 100) : ℚ) / 100

/-- The inner `container_stats` closure of `_collect_docker_stats`. -/
def container_stats (c : ContainerIn) : ContainerSnapshot :=
  match c.raw with
  | .error e => .err c.name c.status e
  | .ok s =>
    let cpu_percent : ℚ :=
      if s.hasCpuStats then
        let cpu_delta := s.cpuTotalUsage - s.precpuTotalUsage
        let system_delta := s.systemCpuUsage - s.presystemCpuUsage
        if system_delta > 0 then
          -- len(s['cpu_stats']['cpu_usage'].get('percpu_usage', [1])) or 1
          let cpu_count :=
            let l := s.percpuUsage.getD [1]
            if l.length = 0 then 1 else l.length
          (cpu_delta : ℚ) / (system_delta : ℚ) * (cpu_count : ℚ) * 100
        else 0
      else 0
    let mem_usage := s.memUsage
    let mem_limit := s.memLimit.getD 1
    let mem_percent : ℚ :=
      if mem_limit ≠ 0 then (mem_usage : ℚ) / (mem_limit : ℚ) * 100 else 0
    .stats c.name c.status (round2 cpu_percent) mem_usage mem_limit
      (round2 mem_percent)

/-- Function `_collect_docker_stats`: gathers `container_stats` over the
listed containers (the `asyncio.gather` of the per-container coroutines,
in listing order). -/
def _collect_docker_stats (containers : List ContainerIn) : List ContainerSnapshot :=
  containers.map container_stats

/-! ## Telemetry cache and refresher -/

/-- The global `_docker_stats_cache` list (initially `[]`). -/
abbrev DockerCache := List ContainerSnapshot

/-- Outcome of one `_collect_docker_stats()` call as observed by its
callers: the produced list, or the message of the exception it raised
(e.g. the docker client or `containers.list` failing). -/
abbrev CollectResult := Except String (List ContainerSnapshot)

/-- Body of one iteration of `_docker_stats_refresher`: on success the
collected data replaces the cache; on an exception the code logs and
leaves the cache untouched. -/
def refreshStep (cache : DockerCache) (r : CollectResult) : DockerCache :=
  match r with
  | .ok data => data
  | .error _ => cache

/-- The `await asyncio.sleep(15)` executed after every refresher
iteration, successful or not. -/
def refresherSleepSeconds : Nat := 15

/-- Cache contents after the refresher loop has consumed a finite prefix
of collection outcomes, starting from the initial empty cache. -/
def _docker_stats_refresher (results : List CollectResult) : DockerCache :=
  results.foldl refreshStep []

/-- Cache contents after `n` iterations of the refresher loop against an
infinite schedule `h` of collection outcomes (the loop runs forever, so
the state is defined at every tick). -/
def cacheIter (h : Nat → CollectResult) : Nat → DockerCache
  | 0 => []
  | n + 1 => refreshStep (cacheIter h n) (h n)

/-- Result of the `/api/docker_stats` endpoint (`response_time` omitted:
wall-clock only). -/
inductive StatsResult where
  | ok (containers : List ContainerSnapshot) (cached : Bool)
  | err (error : String)
deriving DecidableEq, Repr

/-- Endpoint `docker_stats`: reads the cache under the lock; a truthy
(non-empty) cache is returned with `cached=True`; otherwise one
synchronous `_collect_docker_stats()` (outcome `sync`) is attempted,
stored on success and returned with `cached=False`, or reported as an
error.  Returns the response together with the cache state afterwards. -/
def docker_stats (cache : DockerCache) (sync : CollectResult) :
    StatsResult × DockerCache :=
  if cache.isEmpty then
    match sync with
    | .ok data => (.ok data false, data)
    | .error e => (.err e, cache)
  else
    (.ok cache true, cache)

/-! ## The web-search trigger predicate -/

/-- Python `str.lower()` restricted to the ASCII range (`Char.toLower`
lowercases exactly the letters A-Z; every keyword below is ASCII). -/
def strLower (s : String) : String := ⟨s.data.map Char.toLower⟩

/-- Python `str.upper()` restricted to the ASCII range. -/
def strUpper (s : String) : String := ⟨s.data.map Char.toUpper⟩

/-- Does `hay` start with `needle`? -/
def charsStartWith : List Char → List Char → Bool
  | _, [] => true
  | [], _ :: _ => false
  | c :: cs, d :: ds => c == d && charsStartWith cs ds

/-- Does `needle` occur contiguously in `hay`?  Models the Python
`keyword in message_lower` substring test. -/
def charsContain : List Char → List Char → Bool
  | [], needle => needle.isEmpty
  | c :: cs, needle => charsStartWith (c :: cs) needle || charsContain cs needle

/-- Substring membership on strings: Python `needle in hay`. -/
def strContains (hay needle : String) : Bool :=
  charsContain hay.data needle.data

/-- The `search_keywords` list of `needs_web_search`, verbatim and in
order (duplicates included). -/
def searchKeywords : List String :=
  ["when is", "next game", "schedule", "live", "current", "today", "tomorrow",
   "latest", "news", "weather", "score", "result", "fixture", "match",
   "barcelona", "real madrid", "manchester", "chelsea", "arsenal", "liverpool",
   "champions league", "premier league", "la liga", "serie a", "bundesliga",
   "world cup", "euro", "olympics", "nba", "nfl", "mlb", "nhl",
   "stock market", "stock", "market", "trading", "finance", "financial",
   "nasdaq", "nyse", "dow jones", "s&p", "ftse", "currency", "forex",
   "ai news", "artificial intelligence", "tech news", "technology",
   "crypto", "bitcoin", "ethereum", "blockchain",
   "what is", "tell me about", "how is", "what are", "current",
   "latest", "recent", "now", "today", "this week", "this month"]

/-- Function `needs_web_search`: lowercase the message, return whether
any keyword occurs in it as a substring. -/
def needs_web_search (message : String) : Bool :=
  let message_lower := strLower message
  searchKeywords.any (fun keyword => strContains message_lower keyword)

/-! ## Chat orchestration (`ollama_chat`) -/

/-- Seconds-valued performance record stored with an AI message (the
`performance_json` dict). -/
structure PerformanceData where
  total_duration : ℚ
  load_duration : ℚ
  prompt_eval_count : Nat
  prompt_eval_duration : ℚ
  eval_count : Nat
  eval_duration : ℚ
  prompt_rate : ℚ
  eval_rate : ℚ
deriving DecidableEq, Repr

/-- One row of the `messages` table, in insertion order (`created_at`
ascending; `NOW()` is monotone across the inserts of a turn). -/
structure MessageRow where
  session_id : String
  role : String
  content : String
  embedding : String
  performance_data : Option PerformanceData
deriving DecidableEq, Repr

/-- One row of the `chat_sessions` table. -/
structure SessionRow where
  id : String
  title : String
  created_at : Nat
  updated_at : Nat
deriving DecidableEq, Repr

/-- The database state: sessions, plus the global message list in
insertion order. -/
structure Db where
  sessions : List SessionRow
  messages : List MessageRow
deriving DecidableEq, Repr

/-- The request body of `POST /api/ollama_chat` (`ChatRequest`). -/
structure ChatRequest where
  message : String
  session_id : Option String
  model : Option String
deriving DecidableEq, Repr

/-- Parsed JSON of a response from `POST {OLLAMA_URL}/api/generate`:
`status_code` and raw body text, plus the fields the code reads with
`data.get(key, default)` (`none` models an absent key). -/
structure GenerateData where
  status_code : Nat
  text : String
  response : Option String
  total_duration : Option Nat
  load_duration : Option Nat
  prompt_eval_count : Option Nat
  prompt_eval_duration : Option Nat
  eval_count : Option Nat
  eval_duration : Option Nat
deriving DecidableEq, Repr

/-- The effectful collaborators of one `ollama_chat` call, passed in as
data: the fresh session id `gen_random_uuid()` would mint, the
`datetime.now().strftime(...)` title timestamp, the two `NOW()` values
(session-row defaults, and the `UPDATE ... SET updated_at`), the
embedding function `get_embedding`, the `web_search` provider, and the
Ollama gateway keyed by (model, prompt). -/
structure ChatEnv where
  newSessionId : String
  nowTitle : String
  nowCreate : Nat
  nowTouch : Nat
  embed : String → String
  webSearch : String → String
  generate : String → String → GenerateData

/-- The `selected_model = req.model or "mistral:7b"` line (Python
falsiness: `None` and the empty string both fall back). -/
def selected_model_of (req : ChatRequest) : String :=
  match req.model with
  | none => "mistral:7b"
  | some m => if m = "" then "mistral:7b" else m

/-- The `if not req.session_id:` test (falsy `None` or empty string). -/
def needsNewSession (req : ChatRequest) : Bool :=
  match req.session_id with
  | none => true
  | some s => s = ""

/-- The session id the turn runs under after the optional
`INSERT INTO chat_sessions`. -/
def chatSession (req : ChatRequest) (env : ChatEnv) : String :=
  if needsNewSession req then env.newSessionId else req.session_id.getD ""

/-- The fresh session row the optional
`INSERT INTO chat_sessions (title) VALUES ($1)` creates (both timestamp
columns default to `NOW()`). -/
def newSessionRow (env : ChatEnv) : SessionRow :=
  { id := env.newSessionId, title := "Chat " ++ env.nowTitle,
    created_at := env.nowCreate, updated_at := env.nowCreate }

/-- Database state after the optional session creation. -/
def dbEnsured (req : ChatRequest) (env : ChatEnv) (db : Db) : Db :=
  if needsNewSession req then
    { db with sessions := db.sessions ++ [newSessionRow env] }
  else db

/-- The user message row inserted by the turn. -/
def userRow (req : ChatRequest) (env : ChatEnv) : MessageRow :=
  { session_id := chatSession req env, role := "user", content := req.message,
    embedding := env.embed req.message, performance_data := none }

/-- Database state after the user message insert. -/
def dbWithUser (req : ChatRequest) (env : ChatEnv) (db : Db) : Db :=
  let db1 := dbEnsured req env db
  { db1 with messages := db1.messages ++ [userRow req env] }

/-- Messages of one session in `created_at ASC` order. -/
def sessionMessages (db : Db) (sid : String) : List MessageRow :=
  db.messages.filter (fun m => m.session_id = sid)

/-- The fetch `SELECT content, role FROM messages WHERE session_id = $1
ORDER BY created_at DESC LIMIT 10`. -/
def contextFetch (db : Db) (sid : String) : List MessageRow :=
  (sessionMessages db sid).reverse.take 10

/-- The `context` string built from the fetched (newest-first) rows:
empty when there are none, else the header, the rows re-reversed to
chronological order as `ROLE: content` lines, and the trailing header. -/
def contextBlock (context_messages : List MessageRow) : String :=
  if context_messages.isEmpty then ""
  else
    "Previous conversation:\n" ++
      String.join (context_messages.reverse.map
        (fun m => strUpper m.role ++ ": " ++ m.content ++ "\n")) ++
      "\nCurrent conversation:\n"

/-- The `web_info` string: empty unless `needs_web_search` fires, in
which case the search result is wrapped in the bracketed block. -/
def webInfoBlock (message : String) (searchResult : String) : String :=
  if needs_web_search message then
    "\n[Web Search Results: " ++ searchResult ++ "]\n"
  else ""

/-- The `full_prompt` assembly line:
`f"{context}{web_info}USER: {req.message}\nASSISTANT:"`. -/
def fullPromptOf (db : Db) (sid message web_info : String) : String :=
  contextBlock (contextFetch db sid) ++ web_info ++
    "USER: " ++ message ++ "\nASSISTANT:"

/-- The prompt the turn sends to the gateway (context is fetched after
the user message insert, so it already contains the new user turn). -/
def chatPrompt (req : ChatRequest) (env : ChatEnv) (db : Db) : String :=
  fullPromptOf (dbWithUser req env db) (chatSession req env) req.message
    (webInfoBlock req.message (env.webSearch req.message))

/-- The total request timeout handed to the HTTP client: 300 s for
`llama3.1:latest`, 60 s otherwise (static lookup on the model name). -/
def request_timeout_seconds (selected_model : String) : Nat :=
  if selected_model = "llama3.1:latest" then 300 else 60

/-- The gateway response this turn observes. -/
def chatGateway (req : ChatRequest) (env : ChatEnv) (db : Db) : GenerateData :=
  env.generate (selected_model_of req) (chatPrompt req env db)

/-- The `performance_json` computation: `None` unless the reported
`total_duration` is positive; otherwise nanosecond counters divided by
1e9, and each rate guarded by its denominator being positive. -/
def performanceOf (d : GenerateData) : Option PerformanceData :=
  let total_duration := d.total_duration.getD 0
  let load_duration := d.load_duration.getD 0
  let prompt_eval_count := d.prompt_eval_count.getD 0
  let prompt_eval_duration := d.prompt_eval_duration.getD 0
  let eval_count := d.eval_count.getD 0
  let eval_duration := d.eval_duration.getD 0
  if total_duration > 0 then
    let total_duration_s : ℚ := (total_duration : ℚ) / 1000000000
    let load_duration_s : ℚ := (load_duration : ℚ) / 1000000000
    let prompt_eval_duration_s : ℚ := (prompt_eval_duration : ℚ) / 1000000000
    let eval_duration_s : ℚ := (eval_duration : ℚ) / 1000000000
    let prompt_rate : ℚ :=
      if prompt_eval_duration_s > 0 then (prompt_eval_count : ℚ) / prompt_eval_duration_s else 0
    let eval_rate : ℚ :=
      if eval_duration_s > 0 then (eval_count : ℚ) / eval_duration_s else 0
    some { total_duration := total_duration_s, load_duration := load_duration_s,
           prompt_eval_count := prompt_eval_count,
           prompt_eval_duration := prompt_eval_duration_s,
           eval_count := eval_count, eval_duration := eval_duration_s,
           prompt_rate := prompt_rate, eval_rate := eval_rate }
  else none

/-- The AI message row the success branch inserts: the generated text,
its embedding, and the optional performance record. -/
def aiRow (req : ChatRequest) (env : ChatEnv) (db : Db) : MessageRow :=
  let d := chatGateway req env db
  { session_id := chatSession req env, role := "ai",
    content := d.response.getD "",
    embedding := env.embed (d.response.getD ""),
    performance_data := performanceOf d }

/-- The JSON object returned to the HTTP caller, as an ordered list of
key-value pairs (all values in it are strings). -/
abbrev ChatResult := List (String × String)

/-- Endpoint `ollama_chat`: ensure the session, store the user message,
optionally augment, assemble the prompt, call the gateway; on HTTP 200
store the AI message (with `performance_json`), touch the session and
return ok; otherwise return the upstream error text.  Yields the
response and the database state afterwards. -/
def ollama_chat (req : ChatRequest) (env : ChatEnv) (db : Db) :
    ChatResult × Db :=
  let sid := chatSession req env
  let db2 := dbWithUser req env db
  let d := chatGateway req env db
  if d.status_code = 200 then
    let db3 := { db2 with messages := db2.messages ++ [aiRow req env db] }
    let touched := db3.sessions.map fun s : SessionRow =>
      if s.id = sid then { s with updated_at := env.nowTouch } else s
    let db4 := { db3 with sessions := touched }
    ([("status", "ok"), ("response", d.response.getD ""), ("session_id", sid)], db4)
  else
    ([("status", "error"), ("error", d.text)], db2)

/-! ## Spec-side definitions (for refinement-style comparisons) -/

/-- Spec-side reading of a stored performance record against the raw
gateway counters: every duration is the nanosecond counter divided by
1e9, the counts are stored raw, and each rate is count divided by the
duration in seconds, 0 when that duration is 0. -/
def perfRecordSpec (d : GenerateData) (p : PerformanceData) : Prop :=
  p.total_duration = (d.total_duration.getD 0 : ℚ) / 1000000000 ∧
  p.load_duration = (d.load_duration.getD 0 : ℚ) / 1000000000 ∧
  p.prompt_eval_count = d.prompt_eval_count.getD 0 ∧
  p.prompt_eval_duration = (d.prompt_eval_duration.getD 0 : ℚ) / 1000000000 ∧
  p.eval_count = d.eval_count.getD 0 ∧
  p.eval_duration = (d.eval_duration.getD 0 : ℚ) / 1000000000 ∧
  (p.prompt_eval_duration = 0 → p.prompt_rate = 0) ∧
  (p.prompt_eval_duration ≠ 0 →
    p.prompt_rate = (p.prompt_eval_count : ℚ) / p.prompt_eval_duration) ∧
  (p.eval_duration = 0 → p.eval_rate = 0) ∧
  (p.eval_duration ≠ 0 → p.eval_rate = (p.eval_count : ℚ) / p.eval_duration)

/-- Spec-side rendering of the context block: takes the selected
messages already in oldest-first (chronological) order and renders them
as `ROLE: content` lines between the two structural headers.  Compared
against the implementation in the C4 theorem. -/
def contextBlockSpec (oldestFirst : List MessageRow) : String :=
  if oldestFirst = [] then ""
  else
    "Previous conversation:\n" ++
      String.join (oldestFirst.map
        (fun m => strUpper m.role ++ ": " ++ m.content ++ "\n")) ++
      "\nCurrent conversation:\n"

/-! ## Concrete example values (used by counterexamples and witnesses) -/

/-- Example snapshot (an error entry: only string fields, so equality
checks stay cheap). -/
def exSnap : ContainerSnapshot := .err "backend" "running" "stats read failed"

/-- Concrete refresher schedule for the C7 counterexample: first tick
collects one container, second tick succeeds with zero containers. -/
def c7History : Nat → CollectResult :=
  fun n => if n = 0 then Except.ok [exSnap] else Except.ok []

/-- Failing container input used in the C9 witness. -/
def exFailIn : ContainerIn :=
  { name := "db", status := "running", raw := Except.error "stats timeout" }

/-- Healthy container input used in the C9 witness. -/
def exOkIn : ContainerIn :=
  { name := "backend", status := "running",
    raw := Except.ok
      { hasCpuStats := true, cpuTotalUsage := 400, precpuTotalUsage := 200,
        systemCpuUsage := 2000, presystemCpuUsage := 1000,
        percpuUsage := some [1, 2], memUsage := 50, memLimit := some 100 } }

/-- Concrete chat request: no session yet, default model. -/
def exReq : ChatRequest :=
  { message := "hi", session_id := none, model := some "mistral:7b" }

/-- Concrete environment whose gateway answers HTTP 200 with positive
timing counters. -/
def exEnv : ChatEnv :=
  { newSessionId := "sess-new", nowTitle := "2026-10-12 09:00",
    nowCreate := 100, nowTouch := 200,
    embed := fun _ => "[0.1]",
    webSearch := fun _ => "no data",
    generate := fun _ _ =>
      { status_code := 200, text := "ok-body",
        response := some "Hello there.",
        total_duration := some 2000000000,
        load_duration := some 100000000,
        prompt_eval_count := some 5,
        prompt_eval_duration := some 500000000,
        eval_count := some 40,
        eval_duration := some 1000000000 } }

/-- Concrete environment whose gateway fails with HTTP 500. -/
def exEnvErr : ChatEnv :=
  { exEnv with generate := fun _ _ =>
      { status_code := 500, text := "model not found", response := none,
        total_duration := none, load_duration := none,
        prompt_eval_count := none, prompt_eval_duration := none,
        eval_count := none, eval_duration := none } }

/-- Concrete starting database with one existing session and history. -/
def exDb : Db := { sessions := [], messages := [] }

/-! ## Helper lemmas -/

/-- A run of failed collections never changes the cache. -/
lemma refresh_foldl_errors (cache : DockerCache) (post : List CollectResult)
    (h : ∀ r ∈ post, ∃ e, r = Except.error e) :
    post.foldl refreshStep cache = cache := by
  induction post generalizing cache with
  | nil => rfl
  | cons r rs ih =>
    obtain ⟨e, he⟩ := h r (List.mem_cons_self _ _)
    subst he
    simp only [List.foldl_cons, refreshStep]
    exact ih cache (fun x hx => h x (List.mem_cons_of_mem _ hx))

/-- Correctness of the prefix test. -/
lemma charsStartWith_iff (hay needle : List Char) :
    charsStartWith hay needle = true ↔ ∃ rest, hay = needle ++ rest := by
  induction hay generalizing needle with
  | nil =>
    cases needle with
    | nil => simp [charsStartWith]
    | cons d ds => simp [charsStartWith]
  | cons c cs ih =>
    cases needle with
    | nil => simp [charsStartWith]
    | cons d ds =>
      simp only [charsStartWith, Bool.and_eq_true, beq_iff_eq, ih, List.cons_append]
      constructor
      · rintro ⟨rfl, rest, rfl⟩
        exact ⟨rest, rfl⟩
      · rintro ⟨rest, h⟩
        injection h with h1 h2
        exact ⟨h1, rest, h2⟩

/-- Correctness of the substring test: it is exactly contiguous
occurrence. -/
lemma charsContain_iff (hay needle : List Char) :
    charsContain hay needle = true ↔ ∃ pre post, hay = pre ++ needle ++ post := by
  induction hay with
  | nil =>
    simp only [charsContain, List.isEmpty_iff]
    constructor
    · rintro rfl
      exact ⟨[], [], rfl⟩
    · rintro ⟨pre, post, h⟩
      rcases List.append_eq_nil.mp h.symm with ⟨h1, h2⟩
      rcases List.append_eq_nil.mp (by simpa using h1) with ⟨h3, h4⟩
      exact h4
  | cons c cs ih =>
    simp only [charsContain, Bool.or_eq_true, charsStartWith_iff, ih]
    constructor
    · rintro (⟨rest, h⟩ | ⟨pre, post, h⟩)
      · exact ⟨[], rest, by simpa using h⟩
      · exact ⟨c :: pre, post, by simp [h]⟩
    · rintro ⟨pre, post, h⟩
      cases pre with
      | nil => exact Or.inl ⟨post, by simpa using h⟩
      | cons p ps =>
        right
        rw [List.cons_append, List.cons_append] at h
        injection h with h1 h2
        exact ⟨ps, post, h2⟩

/-! ## Claims about the telemetry cache -/

/-- C5 counterexample: a history whose single collection attempt
SUCCEEDED (with zero running containers); the subsequent snapshot call,
its synchronous collection failing, returns an error rather than a
frame, contradicting the claim that any past success guarantees a
non-empty frame. -/
theorem c5_success_then_empty_counterexample :
    (∃ data, ([Except.ok []] : List CollectResult).head? = some (Except.ok data)) ∧
    (docker_stats (_docker_stats_refresher [Except.ok []])
        (Except.error "docker unreachable")).1 =
      StatsResult.err "docker unreachable" :=
  ⟨⟨[], rfl⟩, rfl⟩

/-- C5 (amended): when the most recent successful collection returned a
non-empty container list, every later snapshot call returns exactly that
frame with cached=true, no matter how many collection attempts failed
since. -/
theorem c5_last_nonempty_success_survives
    (pre post : List CollectResult) (data : List ContainerSnapshot)
    (hdata : data ≠ []) (hpost : ∀ r ∈ post, ∃ e, r = Except.error e)
    (sync : CollectResult) :
    _docker_stats_refresher (pre ++ Except.ok data :: post) = data ∧
    docker_stats (_docker_stats_refresher (pre ++ Except.ok data :: post)) sync =
      (StatsResult.ok data true, data) := by
  have hcache : _docker_stats_refresher (pre ++ Except.ok data :: post) = data := by
    unfold _docker_stats_refresher
    rw [List.foldl_append, List.foldl_cons]
    exact refresh_foldl_errors data post hpost
  have hne : data.isEmpty = false := by
    cases data with
    | nil => exact absurd rfl hdata
    | cons a l => rfl
  refine ⟨hcache, ?_⟩
  rw [hcache]
  simp [docker_stats, hne]

/-- C5 witness: the amended theorem applied to a concrete history. -/
theorem c5_last_nonempty_success_survives_witness :
    ([exSnap] : List ContainerSnapshot) ≠ [] ∧
    (∀ r ∈ [(Except.error "boom" : CollectResult), Except.error "again"],
      ∃ e, r = Except.error e) ∧
    _docker_stats_refresher
        ([Except.ok []] ++ Except.ok [exSnap] :: [Except.error "boom", Except.error "again"]) =
      [exSnap] ∧
    docker_stats
        (_docker_stats_refresher
          ([Except.ok []] ++ Except.ok [exSnap] :: [Except.error "boom", Except.error "again"]))
        (Except.error "down") =
      (StatsResult.ok [exSnap] true, [exSnap]) := by
  have h1 : ([exSnap] : List ContainerSnapshot) ≠ [] := by simp
  have h2 : ∀ r ∈ [(Except.error "boom" : CollectResult), Except.error "again"],
      ∃ e, r = Except.error e := by
    intro r hr
    rcases List.mem_cons.mp hr with h | h
    · exact ⟨"boom", h⟩
    · exact ⟨"again", List.mem_singleton.mp h⟩
  obtain ⟨ha, hb⟩ := c5_last_nonempty_success_survives [Except.ok []] _ [exSnap] h1 h2
      (Except.error "down")
  exact ⟨h1, h2, ha, hb⟩

/-- C6: with a non-empty (truthy) cache the endpoint returns the cached
frame with cached=true and leaves the cache alone; with an empty cache
it runs one synchronous collection and, when that succeeds, stores the
frame and returns it with cached=false. -/
theorem c6_get_snapshot_branches (cache : DockerCache) (sync : CollectResult) :
    (cache ≠ [] → docker_stats cache sync = (StatsResult.ok cache true, cache)) ∧
    (cache = [] → ∀ data, sync = Except.ok data →
      docker_stats cache sync = (StatsResult.ok data false, data)) := by
  constructor
  · intro h
    have hne : cache.isEmpty = false := by
      cases cache with
      | nil => exact absurd rfl h
      | cons a l => rfl
    simp [docker_stats, hne]
  · rintro rfl data rfl
    rfl

/-- C6 witness: both branches of the theorem at concrete caches. -/
theorem c6_get_snapshot_branches_witness :
    (([exSnap] : DockerCache) ≠ [] ∧
      docker_stats [exSnap] (Except.error "x") = (StatsResult.ok [exSnap] true, [exSnap])) ∧
    (([] : DockerCache) = [] ∧ (Except.ok [exSnap] : CollectResult) = Except.ok [exSnap] ∧
      docker_stats [] (Except.ok [exSnap]) = (StatsResult.ok [exSnap] false, [exSnap])) := by
  have h1 : ([exSnap] : DockerCache) ≠ [] := by simp
  exact ⟨⟨h1, (c6_get_snapshot_branches [exSnap] (Except.error "x")).1 h1⟩,
    rfl, rfl, (c6_get_snapshot_branches [] (Except.ok [exSnap])).2 rfl [exSnap] rfl⟩

/-- C7 counterexample: after tick 1 the cache is set (non-empty); tick 2
is a SUCCESSFUL collection returning the empty list, after which the
cache is unset again — the endpoint treats it exactly like the cold
state.  This refutes the final clause of the claim (once set, never
unset). -/
theorem c7_set_then_unset_counterexample :
    cacheIter c7History 1 ≠ [] ∧
    (∃ data, c7History 1 = Except.ok data) ∧
    cacheIter c7History 2 = [] ∧
    (docker_stats (cacheIter c7History 2) (Except.error "down")).1 =
      StatsResult.err "down" := by
  refine ⟨by decide, ⟨[], rfl⟩, rfl, rfl⟩

/-- C7 (amended): each refresher iteration replaces the cache on success
and leaves it unchanged on failure; the loop state is defined at every
tick (the loop never exits), and the sleep between iterations is the
fixed 15 seconds; failures never unset the cache — but a successful
collection that returns an empty list resets it to the unset state. -/
theorem c7_refresher_behaviour :
    (∀ (cache : DockerCache) (data : List ContainerSnapshot),
      refreshStep cache (Except.ok data) = data) ∧
    (∀ (cache : DockerCache) (e : String),
      refreshStep cache (Except.error e) = cache) ∧
    (∀ (h : Nat → CollectResult) (n : Nat),
      cacheIter h (n + 1) = refreshStep (cacheIter h n) (h n)) ∧
    refresherSleepSeconds = 15 ∧
    (∀ (cache : DockerCache) (rs : List CollectResult),
      (∀ r ∈ rs, ∃ e, r = Except.error e) → rs.foldl refreshStep cache = cache) :=
  ⟨fun _ _ => rfl, fun _ _ => rfl, fun _ _ => rfl, rfl,
    fun cache rs h => refresh_foldl_errors cache rs h⟩

/-- C7 witness: the amended theorem at concrete states. -/
theorem c7_refresher_behaviour_witness :
    refreshStep [] (Except.ok [exSnap]) = [exSnap] ∧
    refreshStep [exSnap] (Except.error "oops") = [exSnap] ∧
    cacheIter c7History 1 = refreshStep (cacheIter c7History 0) (c7History 0) ∧
    (∀ r ∈ [(Except.error "oops" : CollectResult)], ∃ e, r = Except.error e) ∧
    [(Except.error "oops" : CollectResult)].foldl refreshStep [exSnap] = [exSnap] := by
  have hr : ∀ r ∈ [(Except.error "oops" : CollectResult)], ∃ e, r = Except.error e :=
    fun r hrr => ⟨"oops", List.mem_singleton.mp hrr⟩
  exact ⟨c7_refresher_behaviour.1 [] [exSnap],
    c7_refresher_behaviour.2.1 [exSnap] "oops",
    c7_refresher_behaviour.2.2.1 c7History 0,
    hr,
    c7_refresher_behaviour.2.2.2.2 [exSnap] _ hr⟩

/-- C9: a container whose stats read fails contributes exactly the
name/status/error entry; the entries of the surrounding containers are
the same as if it were absent, and the collection as a whole still
returns a frame of the full length. -/
theorem c9_per_container_failure
    (pre post : List ContainerIn) (c : ContainerIn) (e : String)
    (h : c.raw = Except.error e) :
    _collect_docker_stats (pre ++ c :: post) =
      _collect_docker_stats pre ++
        ContainerSnapshot.err c.name c.status e :: _collect_docker_stats post ∧
    (_collect_docker_stats (pre ++ c :: post)).length = (pre ++ c :: post).length := by
  have hc : container_stats c = .err c.name c.status e := by
    unfold container_stats
    rw [h]
  constructor
  · unfold _collect_docker_stats
    rw [List.map_append, List.map_cons, hc]
  · unfold _collect_docker_stats
    rw [List.length_map]

/-- C9 witness: the theorem at a concrete two-container listing. -/
theorem c9_per_container_failure_witness :
    exFailIn.raw = Except.error "stats timeout" ∧
    _collect_docker_stats ([exOkIn] ++ exFailIn :: []) =
      _collect_docker_stats [exOkIn] ++
        ContainerSnapshot.err exFailIn.name exFailIn.status "stats timeout" ::
          _collect_docker_stats [] ∧
    (_collect_docker_stats ([exOkIn] ++ exFailIn :: [])).length =
      ([exOkIn] ++ exFailIn :: []).length := by
  obtain ⟨ha, hb⟩ := c9_per_container_failure [exOkIn] [] exFailIn "stats timeout" rfl
  exact ⟨rfl, ha, hb⟩

/-- C10: cached=true is returned only from a non-empty cache; a stored
empty frame behaves exactly like the unset cache, so each call against
it performs the synchronous collection and reports cached=false (or the
collection error). -/
theorem c10_empty_cache_is_unset :
    (∀ (cache : DockerCache) (sync : CollectResult) (cs : List ContainerSnapshot),
      (docker_stats cache sync).1 = StatsResult.ok cs true → cache ≠ []) ∧
    (∀ cache : DockerCache, refreshStep cache (Except.ok []) = []) ∧
    (∀ data : List ContainerSnapshot,
      docker_stats [] (Except.ok data) = (StatsResult.ok data false, data)) ∧
    (∀ e : String, docker_stats [] (Except.error e) = (StatsResult.err e, [])) := by
  refine ⟨?_, fun _ => rfl, fun _ => rfl, fun _ => rfl⟩
  intro cache sync cs h hnil
  subst hnil
  cases sync with
  | ok data => simp [docker_stats] at h
  | error e => simp [docker_stats] at h

/-- C10 witness: the theorem applied at concrete cache states. -/
theorem c10_empty_cache_is_unset_witness :
    ((docker_stats [exSnap] (Except.error "x")).1 = StatsResult.ok [exSnap] true ∧
      ([exSnap] : DockerCache) ≠ []) ∧
    refreshStep [exSnap] (Except.ok []) = [] ∧
    docker_stats [] (Except.ok [exSnap]) = (StatsResult.ok [exSnap] false, [exSnap]) ∧
    docker_stats [] (Except.error "x") = (StatsResult.err "x", []) :=
  ⟨⟨rfl, c10_empty_cache_is_unset.1 [exSnap] (Except.error "x") [exSnap] rfl⟩,
    c10_empty_cache_is_unset.2.1 [exSnap],
    c10_empty_cache_is_unset.2.2.1 [exSnap],
    c10_empty_cache_is_unset.2.2.2 "x"⟩

/-! ## Claim about the web-search predicate -/

/-- C8: the predicate is a pure function of the message alone, decided
by case-insensitive substring membership over the fixed keyword
vocabulary (the lowered message contains some keyword contiguously), it
fires on "current bitcoin price", and it does not fire on "write a haiku
about the sea". -/
theorem c8_needs_web_search_pure_predicate :
    (∀ m : String, needs_web_search m = true ↔
      ∃ k ∈ searchKeywords, ∃ pre post : List Char,
        (strLower m).data = pre ++ k.data ++ post) ∧
    needs_web_search "current bitcoin price" = true ∧
    needs_web_search "write a haiku about the sea" = false := by
  refine ⟨?_, by decide, by decide⟩
  intro m
  simp only [needs_web_search, List.any_eq_true, strContains, charsContain_iff]

/-! ## Helper lemmas for the chat pipeline -/

/-- Shape of a successful chat turn. -/
lemma chat_ok_eq (req : ChatRequest) (env : ChatEnv) (db : Db)
    (h : (chatGateway req env db).status_code = 200) :
    ollama_chat req env db =
      ([("status", "ok"),
        ("response", (chatGateway req env db).response.getD ""),
        ("session_id", chatSession req env)],
       { sessions := (dbWithUser req env db).sessions.map
           (fun s => if s.id = chatSession req env then
             { s with updated_at := env.nowTouch } else s),
         messages := (dbWithUser req env db).messages ++ [aiRow req env db] }) := by
  simp only [ollama_chat]
  rw [if_pos h]

/-- Shape of a failed chat turn. -/
lemma chat_err_eq (req : ChatRequest) (env : ChatEnv) (db : Db)
    (h : (chatGateway req env db).status_code ≠ 200) :
    ollama_chat req env db =
      ([("status", "error"), ("error", (chatGateway req env db).text)],
       dbWithUser req env db) := by
  simp only [ollama_chat]
  rw [if_neg h]

/-- The user insert only appends the user row. -/
lemma dbWithUser_messages (req : ChatRequest) (env : ChatEnv) (db : Db) :
    (dbWithUser req env db).messages = db.messages ++ [userRow req env] := by
  unfold dbWithUser dbEnsured
  cases hnn : needsNewSession req <;> simp

/-- Session creation is the only possible session write before the
gateway call. -/
lemma dbWithUser_sessions (req : ChatRequest) (env : ChatEnv) (db : Db) :
    (dbWithUser req env db).sessions = db.sessions ∨
    (dbWithUser req env db).sessions = db.sessions ++ [newSessionRow env] := by
  unfold dbWithUser dbEnsured
  cases hnn : needsNewSession req
  · exact Or.inl (by simp)
  · exact Or.inr (by simp)

/-- The performance record is absent exactly when the reported
total_duration is zero. -/
lemma performanceOf_none_iff (d : GenerateData) :
    performanceOf d = none ↔ d.total_duration.getD 0 = 0 := by
  simp only [performanceOf]
  split
  · next hpos => simp; omega
  · next hneg => simp; omega

/-- A present performance record has the claimed field values. -/
lemma performanceOf_spec (d : GenerateData) (p : PerformanceData)
    (h : performanceOf d = some p) :
    0 < d.total_duration.getD 0 ∧ perfRecordSpec d p := by
  simp only [performanceOf] at h
  split at h
  · next hpos =>
    injection h with h
    subst h
    refine ⟨hpos, rfl, rfl, rfl, rfl, rfl, rfl, ?_, ?_, ?_, ?_⟩
    · intro h0
      dsimp only at h0 ⊢
      simp [h0]
    · intro hne
      dsimp only at hne ⊢
      have hle : (0 : ℚ) ≤ (d.prompt_eval_duration.getD 0 : ℚ) / 1000000000 := by
        positivity
      rw [if_pos (lt_of_le_of_ne hle (Ne.symm hne))]
    · intro h0
      dsimp only at h0 ⊢
      simp [h0]
    · intro hne
      dsimp only at hne ⊢
      have hle : (0 : ℚ) ≤ (d.eval_duration.getD 0 : ℚ) / 1000000000 := by
        positivity
      rw [if_pos (lt_of_le_of_ne hle (Ne.symm hne))]
  · next => exact absurd h (by simp)

/-! ## Claims about the chat turn -/

/-- C1 evaluation at the failing input: the gateway answers HTTP 200
with total_duration 2e9 > 0, yet the JSON returned to the caller has
exactly the keys status, response and session_id — performance_data is
computed and stored with the AI message but never returned. -/
theorem c1_performance_data_not_in_response :
    (ollama_chat exReq exEnv exDb).1.map Prod.fst =
      ["status", "response", "session_id"] ∧
    "performance_data" ∉ (ollama_chat exReq exEnv exDb).1.map Prod.fst ∧
    0 < (chatGateway exReq exEnv exDb).total_duration.getD 0 ∧
    (∃ p, ((ollama_chat exReq exEnv exDb).2.messages.map
        MessageRow.performance_data).getLast? = some (some p)) := by
  refine ⟨rfl, by decide, by decide, ⟨_, rfl⟩⟩

/-- C2: on a successful turn the last stored message is the AI message;
its performance record is absent exactly when the gateway reported
total_duration == 0, and when present its fields are the nanosecond
counters divided by 1e9 with each rate count/duration-in-seconds, 0 when
the denominator is 0. -/
theorem c2_ai_message_performance (req : ChatRequest) (env : ChatEnv) (db : Db)
    (h : (chatGateway req env db).status_code = 200) :
    ∃ m : MessageRow,
      (ollama_chat req env db).2.messages.getLast? = some m ∧
      m.role = "ai" ∧
      (m.performance_data = none ↔
        (chatGateway req env db).total_duration.getD 0 = 0) ∧
      (∀ p, m.performance_data = some p →
        perfRecordSpec (chatGateway req env db) p) := by
  refine ⟨aiRow req env db, ?_, rfl, ?_, ?_⟩
  · rw [chat_ok_eq req env db h]
    exact List.getLast?_concat _
  · have hpd : (aiRow req env db).performance_data =
        performanceOf (chatGateway req env db) := rfl
    rw [hpd]
    exact performanceOf_none_iff (chatGateway req env db)
  · intro p hp
    have hp' : performanceOf (chatGateway req env db) = some p := hp
    exact (performanceOf_spec _ p hp').2

/-- C2 witness: the theorem at the concrete successful turn. -/
theorem c2_ai_message_performance_witness :
    (chatGateway exReq exEnv exDb).status_code = 200 ∧
    (∃ m : MessageRow,
      (ollama_chat exReq exEnv exDb).2.messages.getLast? = some m ∧
      m.role = "ai" ∧
      (m.performance_data = none ↔
        (chatGateway exReq exEnv exDb).total_duration.getD 0 = 0) ∧
      (∀ p, m.performance_data = some p →
        perfRecordSpec (chatGateway exReq exEnv exDb) p)) :=
  ⟨rfl, c2_ai_message_performance exReq exEnv exDb rfl⟩

/-- C3: on a non-success gateway status the caller gets the structured
error result carrying the upstream text, the only message written this
turn is the user message (no AI message), and no session row of the
starting state is modified (so no updated_at refresh); at most the fresh
session row was added. -/
theorem c3_gateway_failure_no_partial_write (req : ChatRequest) (env : ChatEnv)
    (db : Db) (h : (chatGateway req env db).status_code ≠ 200) :
    (ollama_chat req env db).1 =
      [("status", "error"), ("error", (chatGateway req env db).text)] ∧
    (ollama_chat req env db).2.messages = db.messages ++ [userRow req env] ∧
    (∀ m ∈ (ollama_chat req env db).2.messages, m.role = "ai" → m ∈ db.messages) ∧
    (∀ s ∈ db.sessions, s ∈ (ollama_chat req env db).2.sessions) ∧
    ((ollama_chat req env db).2.sessions = db.sessions ∨
      (ollama_chat req env db).2.sessions = db.sessions ++ [newSessionRow env]) := by
  rw [chat_err_eq req env db h]
  refine ⟨rfl, dbWithUser_messages req env db, ?_, ?_, dbWithUser_sessions req env db⟩
  · intro m hm hrole
    rw [dbWithUser_messages] at hm
    rcases List.mem_append.mp hm with h1 | h1
    · exact h1
    · have hm2 : m = userRow req env := List.mem_singleton.mp h1
      subst hm2
      simp [userRow] at hrole
  · intro s hs
    rcases dbWithUser_sessions req env db with h1 | h1
    · rw [h1]; exact hs
    · rw [h1]; exact List.mem_append_left _ hs

/-- C3 witness: the theorem at the concrete failing turn. -/
theorem c3_gateway_failure_no_partial_write_witness :
    (chatGateway exReq exEnvErr exDb).status_code ≠ 200 ∧
    ((ollama_chat exReq exEnvErr exDb).1 =
        [("status", "error"), ("error", (chatGateway exReq exEnvErr exDb).text)] ∧
      (ollama_chat exReq exEnvErr exDb).2.messages =
        exDb.messages ++ [userRow exReq exEnvErr] ∧
      (∀ m ∈ (ollama_chat exReq exEnvErr exDb).2.messages,
        m.role = "ai" → m ∈ exDb.messages) ∧
      (∀ s ∈ exDb.sessions, s ∈ (ollama_chat exReq exEnvErr exDb).2.sessions) ∧
      ((ollama_chat exReq exEnvErr exDb).2.sessions = exDb.sessions ∨
        (ollama_chat exReq exEnvErr exDb).2.sessions =
          exDb.sessions ++ [newSessionRow exEnvErr])) :=
  ⟨by decide, c3_gateway_failure_no_partial_write exReq exEnvErr exDb (by decide)⟩

/-- Reversing, taking, and reversing again selects the trailing
elements. -/
lemma takeRight_eq_drop {α : Type} (l : List α) (k : Nat) :
    (l.reverse.take k).reverse = l.drop (l.length - k) := by
  rw [List.reverse_take, List.reverse_reverse, List.length_reverse]

/-- The implementation context block equals the spec-side rendering of
the same rows in chronological order. -/
lemma contextBlock_eq_spec (l : List MessageRow) :
    contextBlock l = contextBlockSpec l.reverse := by
  unfold contextBlock contextBlockSpec
  by_cases h : l = []
  · subst h; rfl
  · have h1 : l.isEmpty = false := by
      cases l with
      | nil => exact absurd rfl h
      | cons a t => rfl
    have h2 : ¬ (l.reverse = []) := by simpa using h
    simp [h1, h2]

/-- C4: the prompt sent to the gateway is exactly the context block over
the min(10, count) most recent stored messages in oldest-first order,
then the augmentation block, then the new user turn — nothing else.
(The context is fetched after the user insert, so the count includes the
new user message.) -/
theorem c4_prompt_assembly (req : ChatRequest) (env : ChatEnv) (db : Db) :
    chatPrompt req env db =
      contextBlockSpec
        ((sessionMessages (dbWithUser req env db) (chatSession req env)).drop
          ((sessionMessages (dbWithUser req env db) (chatSession req env)).length - 10)) ++
        webInfoBlock req.message (env.webSearch req.message) ++
        "USER: " ++ req.message ++ "\nASSISTANT:" ∧
    ((sessionMessages (dbWithUser req env db) (chatSession req env)).drop
        ((sessionMessages (dbWithUser req env db) (chatSession req env)).length - 10)).length =
      min 10 (sessionMessages (dbWithUser req env db) (chatSession req env)).length := by
  constructor
  · unfold chatPrompt fullPromptOf contextFetch
    rw [contextBlock_eq_spec, takeRight_eq_drop]
  · rw [List.length_drop]
    omega
